import Mathlib

/-!
Symbol visibility selection and the global-enqueue hook of `_CAsyncSupport.h`.

A shallow embedding of `Sources/_CAsyncSupport/_CAsyncSupport.h`.

The header is preprocessor code.  Each object-like or function-like macro is
embedded as a Lean function of the set of predefined macros (`Predefined`),
each conditional section as the selection of one group, and a macro name that has no
definition as `none`.
-/

set_option linter.unusedVariables false

namespace CAsyncSupport

/-! ## Compile-time inputs -/

/-- The predefined macros the header tests with `defined(...)`:
`true` means the macro is defined.  Lines 124, 134, 149 (platform predicates),
173-192 (per-library build flags) and 205 (language mode). -/
structure Predefined where
  /-- Whether `__MACH__` is defined. -/
  MACH : Bool
  /-- Whether `__wasi__` is defined. -/
  wasi : Bool
  /-- Whether `__ELF__` is defined. -/
  ELF : Bool
  /-- Whether `__CYGWIN__` is defined. -/
  CYGWIN : Bool
  /-- Whether `__cplusplus` is defined. -/
  cplusplus : Bool
  /-- Whether `swiftCore_EXPORTS` is defined. -/
  swiftCore_EXPORTS : Bool
  /-- Whether `swift_Concurrency_EXPORTS` is defined. -/
  swift_Concurrency_EXPORTS : Bool
  /-- Whether `swift_Distributed_EXPORTS` is defined. -/
  swift_Distributed_EXPORTS : Bool
  /-- Whether `swift_Differentiation_EXPORTS` is defined. -/
  swift_Differentiation_EXPORTS : Bool
  deriving DecidableEq, Repr

/-- The library names for which the header defines `SWIFT_IMAGE_EXPORTS_<name>`
(lines 173-192). -/
inductive Library where
  | swiftCore
  | swift_Concurrency
  | swift_Distributed
  | swift_Differentiation
  deriving DecidableEq, Repr

/-- The four groups of the platform conditional section (lines 124-162), named after
the comments that open them: Mach-O and WebAssembly, ELF, Cygwin, PE/COFF. -/
inductive PlatformFamily where
  | MachOOrWasm
  | ELF
  | Cygwin
  | PECOFF
  deriving DecidableEq, Repr

/-- The replacement lists the header gives to `SWIFT_ATTRIBUTE_FOR_EXPORTS` and
`SWIFT_ATTRIBUTE_FOR_IMPORTS`. -/
inductive Attribute where
  /-- The tokens `__attribute__((__visibility__("default")))`. -/
  | visibilityDefault
  /-- The tokens `__attribute__((__visibility__("protected")))`. -/
  | visibilityProtected
  /-- The empty replacement list (Cygwin). -/
  | noAttribute
  /-- The tokens `__declspec(dllexport)`. -/
  | dllexport
  /-- The tokens `__declspec(dllimport)`. -/
  | dllimport
  deriving DecidableEq, Repr

/-- The two macros one group of the platform conditional section defines. -/
structure AttributePair where
  /-- The replacement list of `SWIFT_ATTRIBUTE_FOR_EXPORTS`. -/
  FOR_EXPORTS : Attribute
  /-- The replacement list of `SWIFT_ATTRIBUTE_FOR_IMPORTS`. -/
  FOR_IMPORTS : Attribute
  deriving DecidableEq, Repr

/-! ## The preprocessor conditional -/

/-- An `if`/`elif`/`else`/`endif` section of the preprocessor: the first group whose
condition holds is processed, all others are skipped; when no condition holds
the `else` group is processed if there is one, and otherwise no group is. -/
def ifSection {α : Type} : List (Bool × α) → Option α → Option α
  | [], elseGroup => elseGroup
  | (c, g) :: rest, elseGroup => if c then some g else ifSection rest elseGroup

/-- The group of the platform conditional section (lines 124-162) that is
processed.  Its conditions are, in order, `defined(__MACH__) || defined(__wasi__)`,
`defined(__ELF__)`, `defined(__CYGWIN__)`, and its last group is the `else`
group. -/
def platformGroup (p : Predefined) : Option PlatformFamily :=
  ifSection
    [ (p.MACH || p.wasi, PlatformFamily.MachOOrWasm),
      (p.ELF, PlatformFamily.ELF),
      (p.CYGWIN, PlatformFamily.Cygwin) ]
    (some PlatformFamily.PECOFF)

/-- The definitions inside each group (lines 131-132, 146-147, 152-153,
159-160). -/
def groupDefines : PlatformFamily → AttributePair
  | PlatformFamily.MachOOrWasm => ⟨Attribute.visibilityDefault, Attribute.visibilityDefault⟩
  | PlatformFamily.ELF => ⟨Attribute.visibilityProtected, Attribute.visibilityDefault⟩
  | PlatformFamily.Cygwin => ⟨Attribute.noAttribute, Attribute.noAttribute⟩
  | PlatformFamily.PECOFF => ⟨Attribute.dllexport, Attribute.dllimport⟩

/-- The pair of macro definitions in force after the platform conditional section;
`none` would mean that neither macro is defined. -/
def platformSection (p : Predefined) : Option AttributePair :=
  (platformGroup p).map groupDefines

/-- Expansion of `SWIFT_ATTRIBUTE_FOR_EXPORTS`; `none` if the macro is undefined. -/
def SWIFT_ATTRIBUTE_FOR_EXPORTS (p : Predefined) : Option Attribute :=
  (platformSection p).map AttributePair.FOR_EXPORTS

/-- Expansion of `SWIFT_ATTRIBUTE_FOR_IMPORTS`; `none` if the macro is undefined. -/
def SWIFT_ATTRIBUTE_FOR_IMPORTS (p : Predefined) : Option Attribute :=
  (platformSection p).map AttributePair.FOR_IMPORTS

/-! ## Export ownership -/

/-- The build flag `<LIBRARY>_EXPORTS` tested on lines 173, 178, 183, 188. -/
def EXPORTS_defined (p : Predefined) : Library → Bool
  | Library.swiftCore => p.swiftCore_EXPORTS
  | Library.swift_Concurrency => p.swift_Concurrency_EXPORTS
  | Library.swift_Distributed => p.swift_Distributed_EXPORTS
  | Library.swift_Differentiation => p.swift_Differentiation_EXPORTS

/-- Macro `SWIFT_IMAGE_EXPORTS_<LIBRARY>` (lines 173-192): the pp-number `1` when
`<LIBRARY>_EXPORTS` is defined and `0` otherwise. -/
def SWIFT_IMAGE_EXPORTS (p : Predefined) (LIBRARY : Library) : Nat :=
  if EXPORTS_defined p LIBRARY then 1 else 0

/-! ## The macro conditional -/

/-- Macro `SWIFT_MACRO_IF_0(IF_TRUE, IF_FALSE)`, defined as `IF_FALSE` (line 52). -/
def SWIFT_MACRO_IF_0 {α : Type} (IF_TRUE IF_FALSE : α) : α := IF_FALSE

/-- Macro `SWIFT_MACRO_IF_1(IF_TRUE, IF_FALSE)`, defined as `IF_TRUE` (line 53). -/
def SWIFT_MACRO_IF_1 {α : Type} (IF_TRUE IF_FALSE : α) : α := IF_TRUE

/-- Macro `SWIFT_MACRO_CONCAT(SWIFT_MACRO_IF_, B)` (line 51), that is `SWIFT_MACRO_IF_ ## B`,
for a pp-number `B`: the function-like macro the pasted name denotes.  The
header defines only `SWIFT_MACRO_IF_0` and `SWIFT_MACRO_IF_1`; any other pasted
name is not a macro. -/
def SWIFT_MACRO_CONCAT {α : Type} (B : Nat) : Option (α → α → α) :=
  match B with
  | 0 => some SWIFT_MACRO_IF_0
  | 1 => some SWIFT_MACRO_IF_1
  | _ => none

/-- Macro `SWIFT_MACRO_IF(COND, IF_TRUE, IF_FALSE)` (lines 54-55):
`SWIFT_MACRO_CONCAT(SWIFT_MACRO_IF_, COND)(IF_TRUE, IF_FALSE)`. -/
def SWIFT_MACRO_IF {α : Type} (COND : Nat) (IF_TRUE IF_FALSE : α) : Option α :=
  (SWIFT_MACRO_CONCAT COND).map (fun selector => selector IF_TRUE IF_FALSE)

/-! ## The derived annotations -/

/-- Macro `SWIFT_EXPORT_FROM_ATTRIBUTE(LIBRARY)` (lines 194-197):
`SWIFT_MACRO_IF(SWIFT_IMAGE_EXPORTS_##LIBRARY, SWIFT_ATTRIBUTE_FOR_EXPORTS,
SWIFT_ATTRIBUTE_FOR_IMPORTS)`.  The first argument is the pasted name
`SWIFT_IMAGE_EXPORTS_<LIBRARY>`, which is expanded before `SWIFT_MACRO_IF`
pastes it, as are the other two arguments.  The result is `none` if the
expansion leaves an undefined name behind. -/
def SWIFT_EXPORT_FROM_ATTRIBUTE (p : Predefined) (LIBRARY : Library) : Option Attribute :=
  (SWIFT_MACRO_IF (SWIFT_IMAGE_EXPORTS p LIBRARY)
    (SWIFT_ATTRIBUTE_FOR_EXPORTS p)
    (SWIFT_ATTRIBUTE_FOR_IMPORTS p)).join

/-- The linkage specification in front of the attribute. -/
inductive LinkageSpec where
  /-- The tokens `extern "C"`. -/
  | C
  deriving DecidableEq, Repr

/-- What `SWIFT_EXPORT_FROM(LIBRARY)` expands to: an optional linkage
specification followed by an attribute. -/
structure Annotation where
  /-- The linkage specification, if any. -/
  linkage : Option LinkageSpec
  /-- The visibility or storage-class attribute. -/
  attr : Attribute
  deriving DecidableEq, Repr

/-- Macro `SWIFT_EXPORT_FROM(LIBRARY)` (lines 205-211): with `__cplusplus` defined,
`extern "C" SWIFT_EXPORT_FROM_ATTRIBUTE(LIBRARY)`; otherwise
`SWIFT_EXPORT_FROM_ATTRIBUTE(LIBRARY)`. -/
def SWIFT_EXPORT_FROM (p : Predefined) (LIBRARY : Library) : Option Annotation :=
  if p.cplusplus then
    (SWIFT_EXPORT_FROM_ATTRIBUTE p LIBRARY).map (fun a => ⟨some LinkageSpec.C, a⟩)
  else
    (SWIFT_EXPORT_FROM_ATTRIBUTE p LIBRARY).map (fun a => ⟨none, a⟩)

/-- Macro `SWIFT_RUNTIME_EXPORT`, defined as `SWIFT_EXPORT_FROM(swiftCore)` (line 212). -/
def SWIFT_RUNTIME_EXPORT (p : Predefined) : Option Annotation :=
  SWIFT_EXPORT_FROM p Library.swiftCore

/-- The annotation in front of the declaration of `swift_task_enqueueGlobal_hook`
(line 245): `SWIFT_EXPORT_FROM(swift_Concurrency)`. -/
def swift_task_enqueueGlobal_hook_decl (p : Predefined) : Option Annotation :=
  SWIFT_EXPORT_FROM p Library.swift_Concurrency

/-! ## The global-enqueue hook -/

/-- The type `JobRef` (line 242, a pointer to the opaque `struct _Job`): the
address held by the pointer. -/
abbrev JobRef := Nat

/-- The type `swift_task_enqueueGlobal_original` (line 244): a non-null pointer
to a function taking one `JobRef`; the address of the function. -/
structure swift_task_enqueueGlobal_original where
  /-- The address of the function. -/
  address : Nat
  deriving DecidableEq, Repr

/-- A non-null value of the type of `swift_task_enqueueGlobal_hook` (lines
246-247): a pointer to a function taking a `JobRef` and a
`swift_task_enqueueGlobal_original`; the address of the function. -/
structure HookRef where
  /-- The address of the function. -/
  address : Nat
  deriving DecidableEq, Repr

/-- One call through a function pointer, with the arguments passed. -/
inductive Call where
  /-- The call `f(job)` of a `swift_task_enqueueGlobal_original`. -/
  | original (f : swift_task_enqueueGlobal_original) (job : JobRef)
  /-- The call `hook(job, original)` of a hook. -/
  | hook (hook : HookRef) (job : JobRef) (original : swift_task_enqueueGlobal_original)
  deriving DecidableEq, Repr

/-- Whether a call is a call of the hook `h`. -/
def Call.isHookCallOf (h : HookRef) : Call → Bool
  | Call.hook h' _ _ => h' == h
  | Call.original _ _ => false

/-- Whether a call is a call of the default behaviour `f`. -/
def Call.isOriginalCallOf (f : swift_task_enqueueGlobal_original) : Call → Bool
  | Call.original f' _ => f' == f
  | Call.hook _ _ _ => false

/-- The process-wide state around the hook.  The variable
`swift_task_enqueueGlobal_hook` is declared on lines 245-247 as a `_Nullable`
function pointer: `none` is the null pointer (state Empty), `some h` a pointer
to the hook `h` (state Installed). -/
structure Runtime where
  /-- The global variable `swift_task_enqueueGlobal_hook`. -/
  swift_task_enqueueGlobal_hook : Option HookRef
  /-- The default global-enqueue behaviour of the runtime. -/
  originalEnqueue : swift_task_enqueueGlobal_original
  /-- The calls the dispatch point itself has made so far, oldest first.  What
  a hook or the default behaviour does once called is their own and is not
  recorded here. -/
  calls : List Call
  deriving DecidableEq, Repr

/-- Modelled from the spec: the start of the process, which is not part of the
header.  "Initial state: Empty." (§4.2); no call has been made. -/
def Runtime.initial (originalEnqueue : swift_task_enqueueGlobal_original) : Runtime :=
  ⟨none, originalEnqueue, []⟩

/-- Modelled from the spec: the set operation on the hook slot, which is not
part of the header.  "Setting the slot is the only mutation operation"; an
assignment of a hook to the variable `swift_task_enqueueGlobal_hook` (§4.2). -/
def Runtime.install (rt : Runtime) (h : HookRef) : Runtime :=
  { rt with swift_task_enqueueGlobal_hook := some h }

/-- Modelled from the spec: the calls made by the global-enqueue dispatch point,
which is not part of the header (only the hook slot it reads is).  §4.2:
"1. Reads the hook slot.  2. If empty, invokes the original/default
global-enqueue behavior directly with the job.  3. If populated, invokes the
installed hook with (the job, a reference to the original/default behavior), and
does not itself also invoke the default behavior." -/
def dispatchCalls (slot : Option HookRef) (originalEnqueue : swift_task_enqueueGlobal_original)
    (job : JobRef) : List Call :=
  match slot with
  | none => [Call.original originalEnqueue job]
  | some h => [Call.hook h job originalEnqueue]

/-- Modelled from the spec: one call through the global-enqueue dispatch point
(§4.2), which is not part of the header.  The calls the dispatch point makes
are made before it returns; it writes nothing else. -/
def Runtime.dispatch (rt : Runtime) (job : JobRef) : Runtime :=
  { rt with calls := rt.calls ++ dispatchCalls rt.swift_task_enqueueGlobal_hook rt.originalEnqueue job }

/-- Modelled from the spec: a sequence of calls through the dispatch point, one
per job, in order, with no write of the slot in between. -/
def Runtime.dispatchAll (rt : Runtime) (jobs : List JobRef) : Runtime :=
  jobs.foldl Runtime.dispatch rt

/-! ## The decision table of the specification -/

/-- The decision table of §4.1 of the specification, row by row: platform family
and export ownership to attribute strategy.  This definition follows the words
of the specification, not the header. -/
def decisionTable : PlatformFamily → Bool → Attribute
  | PlatformFamily.MachOOrWasm, true => Attribute.visibilityDefault
  | PlatformFamily.MachOOrWasm, false => Attribute.visibilityDefault
  | PlatformFamily.ELF, true => Attribute.visibilityProtected
  | PlatformFamily.ELF, false => Attribute.visibilityDefault
  | PlatformFamily.Cygwin, true => Attribute.noAttribute
  | PlatformFamily.Cygwin, false => Attribute.noAttribute
  | PlatformFamily.PECOFF, true => Attribute.dllexport
  | PlatformFamily.PECOFF, false => Attribute.dllimport

/-! ## Example inputs -/

/-- A C build on a Mach-O target with no library flag defined. -/
def machoConsumer : Predefined :=
  ⟨true, false, false, false, false, false, false, false, false⟩

/-- A C build on an ELF target with no library flag defined. -/
def elfConsumer : Predefined :=
  ⟨false, false, true, false, false, false, false, false, false⟩

/-- A C++ build of the concurrency library on an ELF target. -/
def elfConcurrencyOwner : Predefined :=
  ⟨false, false, true, false, true, false, true, false, false⟩

/-- A C++ build of the core library on an ELF target. -/
def elfCoreOwner : Predefined :=
  ⟨false, false, true, false, true, true, false, false, false⟩

/-- A C build on a WebAssembly target that defines every library flag. -/
def wasiOwner : Predefined :=
  ⟨false, true, false, false, false, true, true, true, true⟩

/-- A C build on a Cygwin target of the core library. -/
def cygwinCoreOwner : Predefined :=
  ⟨false, false, false, true, false, true, false, false, false⟩

/-- A C build with none of the platform predicates defined and no library flag. -/
def unknownConsumer : Predefined :=
  ⟨false, false, false, false, false, false, false, false, false⟩

/-- A C++ build of the core library with none of the platform predicates defined. -/
def unknownCoreOwner : Predefined :=
  ⟨false, false, false, false, true, true, false, false, false⟩

/-! ## Properties of the embedding -/

/-- The platform section always processes a group: the one named by the chain of
conditions. -/
theorem platformGroup_eq (p : Predefined) :
    platformGroup p = some
      (if p.MACH || p.wasi then PlatformFamily.MachOOrWasm
       else if p.ELF then PlatformFamily.ELF
       else if p.CYGWIN then PlatformFamily.Cygwin
       else PlatformFamily.PECOFF) := by
  unfold platformGroup
  simp only [ifSection]
  split_ifs <;> rfl

/-- The attribute `SWIFT_EXPORT_FROM_ATTRIBUTE` selects, in terms of the group
processed and the build flag of the library. -/
theorem SWIFT_EXPORT_FROM_ATTRIBUTE_eq (p : Predefined) (lib : Library) :
    SWIFT_EXPORT_FROM_ATTRIBUTE p lib =
      (platformGroup p).map (fun g =>
        if EXPORTS_defined p lib then (groupDefines g).FOR_EXPORTS
        else (groupDefines g).FOR_IMPORTS) := by
  unfold SWIFT_EXPORT_FROM_ATTRIBUTE SWIFT_MACRO_IF SWIFT_IMAGE_EXPORTS
    SWIFT_ATTRIBUTE_FOR_EXPORTS SWIFT_ATTRIBUTE_FOR_IMPORTS platformSection
  cases platformGroup p <;> cases EXPORTS_defined p lib <;>
    simp [SWIFT_MACRO_CONCAT, SWIFT_MACRO_IF_0, SWIFT_MACRO_IF_1]

/-- The ownership macro is `1` exactly when the build flag is defined. -/
theorem SWIFT_IMAGE_EXPORTS_eq_one_iff (p : Predefined) (lib : Library) :
    SWIFT_IMAGE_EXPORTS p lib = 1 ↔ EXPORTS_defined p lib = true := by
  unfold SWIFT_IMAGE_EXPORTS
  cases EXPORTS_defined p lib <;> simp

/-- The ownership macro is `0` exactly when the build flag is not defined. -/
theorem SWIFT_IMAGE_EXPORTS_eq_zero_iff (p : Predefined) (lib : Library) :
    SWIFT_IMAGE_EXPORTS p lib = 0 ↔ EXPORTS_defined p lib = false := by
  unfold SWIFT_IMAGE_EXPORTS
  cases EXPORTS_defined p lib <;> simp

/-- The attribute part of `SWIFT_EXPORT_FROM(LIBRARY)` is
`SWIFT_EXPORT_FROM_ATTRIBUTE(LIBRARY)` in both language modes. -/
theorem SWIFT_EXPORT_FROM_attr (p : Predefined) (lib : Library) :
    (SWIFT_EXPORT_FROM p lib).map Annotation.attr = SWIFT_EXPORT_FROM_ATTRIBUTE p lib := by
  unfold SWIFT_EXPORT_FROM
  cases p.cplusplus <;> cases SWIFT_EXPORT_FROM_ATTRIBUTE p lib <;> simp

/-- The two attribute macros in terms of the group processed. -/
theorem SWIFT_ATTRIBUTE_FOR_EXPORTS_eq (p : Predefined) :
    SWIFT_ATTRIBUTE_FOR_EXPORTS p = (platformGroup p).map (fun g => (groupDefines g).FOR_EXPORTS) := by
  unfold SWIFT_ATTRIBUTE_FOR_EXPORTS platformSection
  cases platformGroup p <;> simp

/-- The import-side attribute macro in terms of the group processed. -/
theorem SWIFT_ATTRIBUTE_FOR_IMPORTS_eq (p : Predefined) :
    SWIFT_ATTRIBUTE_FOR_IMPORTS p = (platformGroup p).map (fun g => (groupDefines g).FOR_IMPORTS) := by
  unfold SWIFT_ATTRIBUTE_FOR_IMPORTS platformSection
  cases platformGroup p <;> simp

/-! ## The attribute resolver -/

/-- Claim C1.  Whenever the platform section processes the group of family `fam`
and the ownership macro `SWIFT_IMAGE_EXPORTS_<lib>` is `1` exactly when `own` is
true, `SWIFT_EXPORT_FROM_ATTRIBUTE(lib)` expands, without an undefined name, to
the entry of the decision table of §4.1 for `(fam, own)`: default visibility for
MachOOrWasm with either ownership, protected / default visibility for ELF, no
attribute for Cygwin, `dllexport` / `dllimport` for PECOFF. -/
theorem C1_resolver_matches_decision_table (p : Predefined) (lib : Library)
    (fam : PlatformFamily) (own : Bool)
    (hfam : platformGroup p = some fam)
    (hown : SWIFT_IMAGE_EXPORTS p lib = 1 ↔ own = true) :
    SWIFT_EXPORT_FROM_ATTRIBUTE p lib = some (decisionTable fam own) := by
  rw [SWIFT_EXPORT_FROM_ATTRIBUTE_eq, hfam]
  rw [SWIFT_IMAGE_EXPORTS_eq_one_iff] at hown
  cases hflag : EXPORTS_defined p lib <;> cases own <;> cases fam <;>
    simp_all [groupDefines, decisionTable]

/-- Witness of C1: all eight (family, ownership) pairs occur, and give the entry
of the table. -/
theorem C1_resolver_matches_decision_table_witness :
    SWIFT_EXPORT_FROM_ATTRIBUTE wasiOwner Library.swift_Distributed = some Attribute.visibilityDefault
    ∧ SWIFT_EXPORT_FROM_ATTRIBUTE machoConsumer Library.swiftCore = some Attribute.visibilityDefault
    ∧ SWIFT_EXPORT_FROM_ATTRIBUTE elfConcurrencyOwner Library.swift_Concurrency
        = some Attribute.visibilityProtected
    ∧ SWIFT_EXPORT_FROM_ATTRIBUTE elfConcurrencyOwner Library.swiftCore
        = some Attribute.visibilityDefault
    ∧ SWIFT_EXPORT_FROM_ATTRIBUTE cygwinCoreOwner Library.swiftCore = some Attribute.noAttribute
    ∧ SWIFT_EXPORT_FROM_ATTRIBUTE cygwinCoreOwner Library.swift_Differentiation
        = some Attribute.noAttribute
    ∧ SWIFT_EXPORT_FROM_ATTRIBUTE unknownCoreOwner Library.swiftCore = some Attribute.dllexport
    ∧ SWIFT_EXPORT_FROM_ATTRIBUTE unknownCoreOwner Library.swift_Concurrency
        = some Attribute.dllimport :=
  ⟨C1_resolver_matches_decision_table wasiOwner Library.swift_Distributed
      PlatformFamily.MachOOrWasm true (by decide) (by decide),
   C1_resolver_matches_decision_table machoConsumer Library.swiftCore
      PlatformFamily.MachOOrWasm false (by decide) (by decide),
   C1_resolver_matches_decision_table elfConcurrencyOwner Library.swift_Concurrency
      PlatformFamily.ELF true (by decide) (by decide),
   C1_resolver_matches_decision_table elfConcurrencyOwner Library.swiftCore
      PlatformFamily.ELF false (by decide) (by decide),
   C1_resolver_matches_decision_table cygwinCoreOwner Library.swiftCore
      PlatformFamily.Cygwin true (by decide) (by decide),
   C1_resolver_matches_decision_table cygwinCoreOwner Library.swift_Differentiation
      PlatformFamily.Cygwin false (by decide) (by decide),
   C1_resolver_matches_decision_table unknownCoreOwner Library.swiftCore
      PlatformFamily.PECOFF true (by decide) (by decide),
   C1_resolver_matches_decision_table unknownCoreOwner Library.swift_Concurrency
      PlatformFamily.PECOFF false (by decide) (by decide)⟩

/-- Claim C4.  On the ELF family, for any library, a build that owns the library
(`SWIFT_IMAGE_EXPORTS_<lib>` is `1`) gets protected visibility, a build that
does not (`0`) gets default visibility, and the two attributes differ. -/
theorem C4_elf_directional_asymmetry (p q : Predefined) (lib : Library)
    (hp : platformGroup p = some PlatformFamily.ELF)
    (hq : platformGroup q = some PlatformFamily.ELF)
    (hown : SWIFT_IMAGE_EXPORTS p lib = 1)
    (hnot : SWIFT_IMAGE_EXPORTS q lib = 0) :
    SWIFT_EXPORT_FROM_ATTRIBUTE p lib = some Attribute.visibilityProtected
    ∧ SWIFT_EXPORT_FROM_ATTRIBUTE q lib = some Attribute.visibilityDefault
    ∧ SWIFT_EXPORT_FROM_ATTRIBUTE p lib ≠ SWIFT_EXPORT_FROM_ATTRIBUTE q lib := by
  rw [SWIFT_IMAGE_EXPORTS_eq_one_iff] at hown
  rw [SWIFT_IMAGE_EXPORTS_eq_zero_iff] at hnot
  rw [SWIFT_EXPORT_FROM_ATTRIBUTE_eq, SWIFT_EXPORT_FROM_ATTRIBUTE_eq, hp, hq, hown, hnot]
  simp [groupDefines]

/-- Witness of C4: the ELF build of the concurrency library against an ELF
build that owns nothing. -/
theorem C4_elf_directional_asymmetry_witness :
    SWIFT_EXPORT_FROM_ATTRIBUTE elfConcurrencyOwner Library.swift_Concurrency
      = some Attribute.visibilityProtected
    ∧ SWIFT_EXPORT_FROM_ATTRIBUTE elfConsumer Library.swift_Concurrency
      = some Attribute.visibilityDefault
    ∧ SWIFT_EXPORT_FROM_ATTRIBUTE elfConcurrencyOwner Library.swift_Concurrency
      ≠ SWIFT_EXPORT_FROM_ATTRIBUTE elfConsumer Library.swift_Concurrency :=
  C4_elf_directional_asymmetry elfConcurrencyOwner elfConsumer Library.swift_Concurrency
    (by decide) (by decide) (by decide) (by decide)

/-- Claim C5.  When `__MACH__` or `__wasi__` is defined, for any library, a
build that owns the library and a build that does not get the same attribute,
and it is default visibility. -/
theorem C5_macho_wasm_directional_symmetry (p q : Predefined) (lib : Library)
    (hp : p.MACH = true ∨ p.wasi = true)
    (hq : q.MACH = true ∨ q.wasi = true)
    (hown : SWIFT_IMAGE_EXPORTS p lib = 1)
    (hnot : SWIFT_IMAGE_EXPORTS q lib = 0) :
    platformGroup p = some PlatformFamily.MachOOrWasm
    ∧ platformGroup q = some PlatformFamily.MachOOrWasm
    ∧ SWIFT_EXPORT_FROM_ATTRIBUTE p lib = SWIFT_EXPORT_FROM_ATTRIBUTE q lib
    ∧ SWIFT_EXPORT_FROM_ATTRIBUTE p lib = some Attribute.visibilityDefault
    ∧ SWIFT_EXPORT_FROM_ATTRIBUTE q lib = some Attribute.visibilityDefault := by
  have gp : platformGroup p = some PlatformFamily.MachOOrWasm := by
    rw [platformGroup_eq]; rcases hp with h | h <;> simp [h]
  have gq : platformGroup q = some PlatformFamily.MachOOrWasm := by
    rw [platformGroup_eq]; rcases hq with h | h <;> simp [h]
  rw [SWIFT_IMAGE_EXPORTS_eq_one_iff] at hown
  rw [SWIFT_IMAGE_EXPORTS_eq_zero_iff] at hnot
  rw [SWIFT_EXPORT_FROM_ATTRIBUTE_eq, SWIFT_EXPORT_FROM_ATTRIBUTE_eq, gp, gq, hown, hnot]
  simp [groupDefines]

/-- Witness of C5: a WebAssembly build that owns the core library against a
Mach-O build that does not. -/
theorem C5_macho_wasm_directional_symmetry_witness :
    platformGroup wasiOwner = some PlatformFamily.MachOOrWasm
    ∧ platformGroup machoConsumer = some PlatformFamily.MachOOrWasm
    ∧ SWIFT_EXPORT_FROM_ATTRIBUTE wasiOwner Library.swiftCore
      = SWIFT_EXPORT_FROM_ATTRIBUTE machoConsumer Library.swiftCore
    ∧ SWIFT_EXPORT_FROM_ATTRIBUTE wasiOwner Library.swiftCore = some Attribute.visibilityDefault
    ∧ SWIFT_EXPORT_FROM_ATTRIBUTE machoConsumer Library.swiftCore
      = some Attribute.visibilityDefault :=
  C5_macho_wasm_directional_symmetry wasiOwner machoConsumer Library.swiftCore
    (Or.inr rfl) (Or.inl rfl) (by decide) (by decide)

/-- Claim C6.  For each of the four libraries the ownership macro
`SWIFT_IMAGE_EXPORTS_<library>` is `1` if and only if `<library>_EXPORTS` is
defined, and is `0` otherwise; when the flag is not defined,
`SWIFT_EXPORT_FROM_ATTRIBUTE(<library>)` expands to what
`SWIFT_ATTRIBUTE_FOR_IMPORTS` expands to, which is an attribute and not an
undefined name. -/
theorem C6_ownership_follows_build_flag (p : Predefined) (lib : Library) :
    (SWIFT_IMAGE_EXPORTS p Library.swiftCore = 1 ↔ p.swiftCore_EXPORTS = true)
    ∧ (SWIFT_IMAGE_EXPORTS p Library.swift_Concurrency = 1 ↔ p.swift_Concurrency_EXPORTS = true)
    ∧ (SWIFT_IMAGE_EXPORTS p Library.swift_Distributed = 1 ↔ p.swift_Distributed_EXPORTS = true)
    ∧ (SWIFT_IMAGE_EXPORTS p Library.swift_Differentiation = 1
        ↔ p.swift_Differentiation_EXPORTS = true)
    ∧ (SWIFT_IMAGE_EXPORTS p lib = 1 ∨ SWIFT_IMAGE_EXPORTS p lib = 0)
    ∧ (EXPORTS_defined p lib = false →
        SWIFT_IMAGE_EXPORTS p lib = 0
        ∧ SWIFT_EXPORT_FROM_ATTRIBUTE p lib = SWIFT_ATTRIBUTE_FOR_IMPORTS p
        ∧ ∃ a, SWIFT_ATTRIBUTE_FOR_IMPORTS p = some a
            ∧ SWIFT_EXPORT_FROM_ATTRIBUTE p lib = some a) := by
  refine ⟨SWIFT_IMAGE_EXPORTS_eq_one_iff p _, SWIFT_IMAGE_EXPORTS_eq_one_iff p _,
    SWIFT_IMAGE_EXPORTS_eq_one_iff p _, SWIFT_IMAGE_EXPORTS_eq_one_iff p _, ?_, ?_⟩
  · unfold SWIFT_IMAGE_EXPORTS
    cases EXPORTS_defined p lib <;> simp
  · intro h
    have e : SWIFT_EXPORT_FROM_ATTRIBUTE p lib = SWIFT_ATTRIBUTE_FOR_IMPORTS p := by
      rw [SWIFT_EXPORT_FROM_ATTRIBUTE_eq, SWIFT_ATTRIBUTE_FOR_IMPORTS_eq, h]
      simp
    refine ⟨(SWIFT_IMAGE_EXPORTS_eq_zero_iff p lib).2 h, e, ?_⟩
    rw [e, SWIFT_ATTRIBUTE_FOR_IMPORTS_eq, platformGroup_eq]
    exact ⟨_, rfl, rfl⟩

/-- Witness of C6: an ELF build with no library flag resolves the concurrency
library to the import side, default visibility. -/
theorem C6_ownership_follows_build_flag_witness :
    SWIFT_IMAGE_EXPORTS elfConsumer Library.swift_Concurrency = 0
    ∧ SWIFT_EXPORT_FROM_ATTRIBUTE elfConsumer Library.swift_Concurrency
        = SWIFT_ATTRIBUTE_FOR_IMPORTS elfConsumer
    ∧ SWIFT_ATTRIBUTE_FOR_IMPORTS elfConsumer = some Attribute.visibilityDefault :=
  ⟨((C6_ownership_follows_build_flag elfConsumer Library.swift_Concurrency).2.2.2.2.2 rfl).1,
   ((C6_ownership_follows_build_flag elfConsumer Library.swift_Concurrency).2.2.2.2.2 rfl).2.1,
   by decide⟩

/-- Claim C7.  For every combination of `__MACH__`, `__wasi__`, `__ELF__` and
`__CYGWIN__` the platform section processes exactly one group, so that both
`SWIFT_ATTRIBUTE_FOR_EXPORTS` and `SWIFT_ATTRIBUTE_FOR_IMPORTS` are defined, by
one of the four pairs of the header; when none of the four predicates is
defined the pair is `__declspec(dllexport)` / `__declspec(dllimport)`. -/
theorem C7_platform_chain_total (p : Predefined) :
    (∃! pair : AttributePair, platformSection p = some pair)
    ∧ (∃ fam, platformGroup p = some fam
        ∧ SWIFT_ATTRIBUTE_FOR_EXPORTS p = some (groupDefines fam).FOR_EXPORTS
        ∧ SWIFT_ATTRIBUTE_FOR_IMPORTS p = some (groupDefines fam).FOR_IMPORTS)
    ∧ (platformSection p = some ⟨Attribute.visibilityDefault, Attribute.visibilityDefault⟩
        ∨ platformSection p = some ⟨Attribute.visibilityProtected, Attribute.visibilityDefault⟩
        ∨ platformSection p = some ⟨Attribute.noAttribute, Attribute.noAttribute⟩
        ∨ platformSection p = some ⟨Attribute.dllexport, Attribute.dllimport⟩)
    ∧ (p.MACH = false → p.wasi = false → p.ELF = false → p.CYGWIN = false →
        platformGroup p = some PlatformFamily.PECOFF
        ∧ platformSection p = some ⟨Attribute.dllexport, Attribute.dllimport⟩
        ∧ SWIFT_ATTRIBUTE_FOR_EXPORTS p = some Attribute.dllexport
        ∧ SWIFT_ATTRIBUTE_FOR_IMPORTS p = some Attribute.dllimport) := by
  refine ⟨?_, ?_, ?_, ?_⟩
  · unfold platformSection
    rw [platformGroup_eq]
    exact ⟨_, rfl, fun y hy => (Option.some.inj hy).symm⟩
  · rw [SWIFT_ATTRIBUTE_FOR_EXPORTS_eq, SWIFT_ATTRIBUTE_FOR_IMPORTS_eq, platformGroup_eq]
    exact ⟨_, rfl, rfl, rfl⟩
  · unfold platformSection
    rw [platformGroup_eq]
    cases p.MACH <;> cases p.wasi <;> cases p.ELF <;> cases p.CYGWIN <;>
      simp [groupDefines]
  · intro h1 h2 h3 h4
    rw [SWIFT_ATTRIBUTE_FOR_EXPORTS_eq, SWIFT_ATTRIBUTE_FOR_IMPORTS_eq]
    unfold platformSection
    rw [platformGroup_eq]
    simp [h1, h2, h3, h4, groupDefines]

/-- Witness of C7: a build with none of the four platform predicates defined
takes the PE/COFF group. -/
theorem C7_platform_chain_total_witness :
    platformGroup unknownConsumer = some PlatformFamily.PECOFF
    ∧ platformSection unknownConsumer = some ⟨Attribute.dllexport, Attribute.dllimport⟩
    ∧ SWIFT_ATTRIBUTE_FOR_EXPORTS unknownConsumer = some Attribute.dllexport
    ∧ SWIFT_ATTRIBUTE_FOR_IMPORTS unknownConsumer = some Attribute.dllimport :=
  (C7_platform_chain_total unknownConsumer).2.2.2 rfl rfl rfl rfl

/-- Claim C9.  In every build (every platform family, every setting of the
library flags, C and C++), `SWIFT_RUNTIME_EXPORT` expands to what
`SWIFT_EXPORT_FROM(swiftCore)` expands to; the expansion is defined, its
attribute is `SWIFT_EXPORT_FROM_ATTRIBUTE(swiftCore)`, and it is preceded by
`extern "C"` exactly in C++. -/
theorem C9_runtime_export_is_export_from_swiftCore (p : Predefined) :
    SWIFT_RUNTIME_EXPORT p = SWIFT_EXPORT_FROM p Library.swiftCore
    ∧ ∃ ann, SWIFT_RUNTIME_EXPORT p = some ann
        ∧ SWIFT_EXPORT_FROM_ATTRIBUTE p Library.swiftCore = some ann.attr
        ∧ ann.linkage = (if p.cplusplus then some LinkageSpec.C else none) := by
  refine ⟨rfl, ?_⟩
  unfold SWIFT_RUNTIME_EXPORT SWIFT_EXPORT_FROM
  rw [SWIFT_EXPORT_FROM_ATTRIBUTE_eq, platformGroup_eq]
  cases p.cplusplus <;> simp

/-- Claim C10, counterexample.  That the hook slot gets the export-side
attribute exactly when `swift_Concurrency_EXPORTS` is defined fails on a Mach-O build with no library
flag: the slot gets default visibility, which is what
`SWIFT_ATTRIBUTE_FOR_EXPORTS` expands to there, although the flag is not
defined. -/
theorem C10_hook_export_side_iff_fails :
    ¬ ((swift_task_enqueueGlobal_hook_decl machoConsumer).map Annotation.attr
          = SWIFT_ATTRIBUTE_FOR_EXPORTS machoConsumer
        ↔ machoConsumer.swift_Concurrency_EXPORTS = true) := by
  decide

/-- Claim C10, amended.  The attribute resolved for a library is the same in any
two builds that process the same platform group and agree on the flag of that
library.  The hook slot, declared with `SWIFT_EXPORT_FROM(swift_Concurrency)`,
gets the expansion of `SWIFT_ATTRIBUTE_FOR_EXPORTS` when
`swift_Concurrency_EXPORTS` is defined and that of `SWIFT_ATTRIBUTE_FOR_IMPORTS`
when it is not, whatever the other three flags are; on the ELF and PE/COFF
groups, where the two expansions differ, it gets the export-side attribute if
and only if the flag is defined. -/
theorem C10_attribute_depends_on_own_flag_only (p q : Predefined) (lib : Library) :
    (platformGroup p = platformGroup q → EXPORTS_defined p lib = EXPORTS_defined q lib →
      SWIFT_EXPORT_FROM_ATTRIBUTE p lib = SWIFT_EXPORT_FROM_ATTRIBUTE q lib)
    ∧ (platformGroup p = platformGroup q →
        p.swift_Concurrency_EXPORTS = q.swift_Concurrency_EXPORTS →
        (swift_task_enqueueGlobal_hook_decl p).map Annotation.attr
          = (swift_task_enqueueGlobal_hook_decl q).map Annotation.attr)
    ∧ (p.swift_Concurrency_EXPORTS = true →
        (swift_task_enqueueGlobal_hook_decl p).map Annotation.attr
          = SWIFT_ATTRIBUTE_FOR_EXPORTS p)
    ∧ (p.swift_Concurrency_EXPORTS = false →
        (swift_task_enqueueGlobal_hook_decl p).map Annotation.attr
          = SWIFT_ATTRIBUTE_FOR_IMPORTS p)
    ∧ (platformGroup p = some PlatformFamily.ELF ∨ platformGroup p = some PlatformFamily.PECOFF →
        ((swift_task_enqueueGlobal_hook_decl p).map Annotation.attr
            = SWIFT_ATTRIBUTE_FOR_EXPORTS p
          ↔ p.swift_Concurrency_EXPORTS = true)) := by
  have hook : ∀ r : Predefined,
      (swift_task_enqueueGlobal_hook_decl r).map Annotation.attr
        = (platformGroup r).map (fun g =>
            if r.swift_Concurrency_EXPORTS then (groupDefines g).FOR_EXPORTS
            else (groupDefines g).FOR_IMPORTS) := by
    intro r
    unfold swift_task_enqueueGlobal_hook_decl
    rw [SWIFT_EXPORT_FROM_attr, SWIFT_EXPORT_FROM_ATTRIBUTE_eq]
    rfl
  refine ⟨?_, ?_, ?_, ?_, ?_⟩
  · intro hg hf
    rw [SWIFT_EXPORT_FROM_ATTRIBUTE_eq, SWIFT_EXPORT_FROM_ATTRIBUTE_eq, hg, hf]
  · intro hg hf
    rw [hook, hook, hg, hf]
  · intro hf
    rw [hook, SWIFT_ATTRIBUTE_FOR_EXPORTS_eq, hf]
    simp
  · intro hf
    rw [hook, SWIFT_ATTRIBUTE_FOR_IMPORTS_eq, hf]
    simp
  · intro hg
    rw [hook, SWIFT_ATTRIBUTE_FOR_EXPORTS_eq]
    rcases hg with hg | hg <;> rw [hg] <;>
      cases p.swift_Concurrency_EXPORTS <;> simp [groupDefines]

/-- Witness of the amended C10: two ELF builds that differ in the core flag but
agree on the concurrency flag, and the ELF build of the concurrency library. -/
theorem C10_attribute_depends_on_own_flag_only_witness :
    SWIFT_EXPORT_FROM_ATTRIBUTE elfConsumer Library.swift_Concurrency
      = SWIFT_EXPORT_FROM_ATTRIBUTE elfCoreOwner Library.swift_Concurrency
    ∧ (swift_task_enqueueGlobal_hook_decl elfConsumer).map Annotation.attr
      = (swift_task_enqueueGlobal_hook_decl elfCoreOwner).map Annotation.attr
    ∧ (swift_task_enqueueGlobal_hook_decl elfConcurrencyOwner).map Annotation.attr
      = SWIFT_ATTRIBUTE_FOR_EXPORTS elfConcurrencyOwner
    ∧ (swift_task_enqueueGlobal_hook_decl elfConsumer).map Annotation.attr
      = SWIFT_ATTRIBUTE_FOR_IMPORTS elfConsumer
    ∧ ((swift_task_enqueueGlobal_hook_decl elfConsumer).map Annotation.attr
          = SWIFT_ATTRIBUTE_FOR_EXPORTS elfConsumer
        ↔ elfConsumer.swift_Concurrency_EXPORTS = true) :=
  ⟨(C10_attribute_depends_on_own_flag_only elfConsumer elfCoreOwner
      Library.swift_Concurrency).1 (by decide) (by decide),
   (C10_attribute_depends_on_own_flag_only elfConsumer elfCoreOwner
      Library.swift_Concurrency).2.1 (by decide) (by decide),
   (C10_attribute_depends_on_own_flag_only elfConcurrencyOwner elfConcurrencyOwner
      Library.swift_Concurrency).2.2.1 (by decide),
   (C10_attribute_depends_on_own_flag_only elfConsumer elfConsumer
      Library.swift_Concurrency).2.2.2.1 (by decide),
   (C10_attribute_depends_on_own_flag_only elfConsumer elfConsumer
      Library.swift_Concurrency).2.2.2.2 (Or.inl (by decide))⟩

/-! ## The dispatch point and the hook slot -/

/-- A run of dispatches with a hook installed calls that hook once per job, in
order, and leaves the slot and the default behaviour as they were. -/
theorem dispatchAll_installed (jobs : List JobRef) :
    ∀ (rt : Runtime) (h : HookRef), rt.swift_task_enqueueGlobal_hook = some h →
      (rt.dispatchAll jobs).calls
          = rt.calls ++ jobs.map (fun j => Call.hook h j rt.originalEnqueue)
      ∧ (rt.dispatchAll jobs).swift_task_enqueueGlobal_hook = some h
      ∧ (rt.dispatchAll jobs).originalEnqueue = rt.originalEnqueue := by
  induction jobs with
  | nil =>
    intro rt h hs
    simp [Runtime.dispatchAll, hs]
  | cons j js ih =>
    intro rt h hs
    have hs1 : (rt.dispatch j).swift_task_enqueueGlobal_hook = some h := by
      simp [Runtime.dispatch, hs]
    obtain ⟨a, b, c⟩ := ih (rt.dispatch j) h hs1
    have step : rt.dispatchAll (j :: js) = (rt.dispatch j).dispatchAll js := by
      simp [Runtime.dispatchAll]
    rw [step]
    refine ⟨?_, b, ?_⟩
    · rw [a]
      simp [Runtime.dispatch, dispatchCalls, hs]
    · rw [c]
      simp [Runtime.dispatch]

/-- Claim C2.  With the hook slot holding the hook `h`, a call through the
dispatch point makes exactly one call, the call of `h` with the same job and
with the reference to the default enqueue behaviour (the reference the dispatch
point calls when the slot is empty); it makes no call of the default behaviour
itself, and leaves the slot as it was. -/
theorem C2_installed_hook_intercepts (rt : Runtime) (h : HookRef) (job : JobRef)
    (hslot : rt.swift_task_enqueueGlobal_hook = some h) :
    (rt.dispatch job).calls = rt.calls ++ [Call.hook h job rt.originalEnqueue]
    ∧ dispatchCalls rt.swift_task_enqueueGlobal_hook rt.originalEnqueue job
        = [Call.hook h job rt.originalEnqueue]
    ∧ (dispatchCalls rt.swift_task_enqueueGlobal_hook rt.originalEnqueue job).countP
        (Call.isHookCallOf h) = 1
    ∧ (∀ f j, Call.original f j
        ∉ dispatchCalls rt.swift_task_enqueueGlobal_hook rt.originalEnqueue job)
    ∧ dispatchCalls none rt.originalEnqueue job = [Call.original rt.originalEnqueue job]
    ∧ (rt.dispatch job).swift_task_enqueueGlobal_hook = some h
    ∧ (rt.dispatch job).originalEnqueue = rt.originalEnqueue := by
  simp [Runtime.dispatch, dispatchCalls, hslot, Call.isHookCallOf]

/-- Witness of C2: hook `7` installed in a fresh process, job `100`. -/
theorem C2_installed_hook_intercepts_witness :
    (((Runtime.initial ⟨1⟩).install ⟨7⟩).dispatch 100).calls = [Call.hook ⟨7⟩ 100 ⟨1⟩] :=
  (C2_installed_hook_intercepts ((Runtime.initial ⟨1⟩).install ⟨7⟩) ⟨7⟩ 100 rfl).1

/-- Claim C3.  With the hook slot empty, a call through the dispatch point makes
exactly one call, before it returns: the call of the default enqueue behaviour
with the same job; it calls no hook and leaves the slot empty. -/
theorem C3_empty_slot_bypasses (rt : Runtime) (job : JobRef)
    (hslot : rt.swift_task_enqueueGlobal_hook = none) :
    (rt.dispatch job).calls = rt.calls ++ [Call.original rt.originalEnqueue job]
    ∧ dispatchCalls rt.swift_task_enqueueGlobal_hook rt.originalEnqueue job
        = [Call.original rt.originalEnqueue job]
    ∧ (dispatchCalls rt.swift_task_enqueueGlobal_hook rt.originalEnqueue job).countP
        (Call.isOriginalCallOf rt.originalEnqueue) = 1
    ∧ (∀ h j f, Call.hook h j f
        ∉ dispatchCalls rt.swift_task_enqueueGlobal_hook rt.originalEnqueue job)
    ∧ (rt.dispatch job).swift_task_enqueueGlobal_hook = none
    ∧ (rt.dispatch job).originalEnqueue = rt.originalEnqueue := by
  simp [Runtime.dispatch, dispatchCalls, hslot, Call.isOriginalCallOf]

/-- Witness of C3: a fresh process, job `100`. -/
theorem C3_empty_slot_bypasses_witness :
    ((Runtime.initial ⟨1⟩).dispatch 100).calls = [Call.original ⟨1⟩ 100] :=
  (C3_empty_slot_bypasses (Runtime.initial ⟨1⟩) 100 rfl).1

/-- Claim C8.  Installing hook `A` and then hook `B` leaves the slot holding
`B`.  Every call through the dispatch point made afterwards, with no write of
the slot in between, is a call of `B` with the job dispatched and the default
behaviour; the slot still holds `B` after them; and if `A` and `B` are two
different hooks none of these calls is a call of `A`. -/
theorem C8_reinstall_replaces_hook (rt : Runtime) (A B : HookRef) (jobs : List JobRef) :
    ((rt.install A).install B).swift_task_enqueueGlobal_hook = some B
    ∧ (((rt.install A).install B).dispatchAll jobs).calls
        = rt.calls ++ jobs.map (fun j => Call.hook B j rt.originalEnqueue)
    ∧ (((rt.install A).install B).dispatchAll jobs).swift_task_enqueueGlobal_hook = some B
    ∧ (A ≠ B → ∀ c ∈ jobs.map (fun j => Call.hook B j rt.originalEnqueue),
        Call.isHookCallOf A c = false) := by
  have hs : ((rt.install A).install B).swift_task_enqueueGlobal_hook = some B := rfl
  obtain ⟨a, b, _⟩ := dispatchAll_installed jobs ((rt.install A).install B) B hs
  refine ⟨hs, a, b, ?_⟩
  intro hne c hc
  rw [List.mem_map] at hc
  obtain ⟨j, _, rfl⟩ := hc
  simp only [Call.isHookCallOf, beq_eq_false_iff_ne, ne_eq]
  exact fun e => hne e.symm

/-- Witness of C8: hooks `7` then `8` installed in a fresh process, then jobs
`100`, `101`, `102` dispatched. -/
theorem C8_reinstall_replaces_hook_witness :
    ((((Runtime.initial ⟨1⟩).install ⟨7⟩).install ⟨8⟩).dispatchAll [100, 101, 102]).calls
        = [Call.hook ⟨8⟩ 100 ⟨1⟩, Call.hook ⟨8⟩ 101 ⟨1⟩, Call.hook ⟨8⟩ 102 ⟨1⟩]
    ∧ Call.isHookCallOf ⟨7⟩ (Call.hook ⟨8⟩ 101 ⟨1⟩) = false :=
  ⟨(C8_reinstall_replaces_hook (Runtime.initial ⟨1⟩) ⟨7⟩ ⟨8⟩ [100, 101, 102]).2.1,
   (C8_reinstall_replaces_hook (Runtime.initial ⟨1⟩) ⟨7⟩ ⟨8⟩ [100, 101, 102]).2.2.2
      (by decide) (Call.hook ⟨8⟩ 101 ⟨1⟩) (by decide)⟩

end CAsyncSupport
